import Mathlib

/-!
Shallow embedding of `src/operator/src/sink/webhook_controller.rs` (the
SinkWebhook reconciliation controller of the `dna` repository).

Timestamps are modelled as integers counting nanoseconds since the Unix
epoch (chrono `DateTime<Utc>` has nanosecond resolution).  Durations are
natural numbers of nanoseconds (Rust `std::time::Duration` is unsigned,
with nanosecond resolution).  Kubernetes API calls are modelled by
threading an explicit cluster state through `reconcile`/`cleanup`, with a
`FailSpec` record injecting a failure into each kind of API call, so the
`?`-propagation of the Rust code becomes explicit `Except` plumbing.
-/

namespace Webhook

/-- k8s `IntOrString` (used for probe ports). -/
inductive IntOrString where
  | int (i : Int)
  | str (s : String)
deriving DecidableEq

/-- k8s `EnvVar`: a named environment entry with an optional value. -/
structure EnvVar where
  name : String
  value : Option String := none
deriving DecidableEq

/-- k8s `meta/v1::Condition` with `last_transition_time` as nanoseconds. -/
structure Condition where
  last_transition_time : Int
  type_ : String
  message : String
  observed_generation : Option Int
  reason : String
  status : String
deriving DecidableEq

/-- k8s `ContainerStateTerminated` (only the field the controller reads). -/
structure ContainerStateTerminated where
  finished_at : Option Int := none
deriving DecidableEq

/-- k8s `ContainerState` (only the field the controller reads). -/
structure ContainerState where
  terminated : Option ContainerStateTerminated := none
deriving DecidableEq

/-- k8s `ContainerStatus` (only the field the controller reads). -/
structure ContainerStatus where
  state : Option ContainerState := none
deriving DecidableEq

/-- k8s `PodStatus` (only the field the controller reads). -/
structure PodStatus where
  container_statuses : Option (List ContainerStatus) := none
deriving DecidableEq

/-- k8s `ObjectMeta` restricted to the fields this controller touches. -/
structure ObjectMeta where
  name : Option String := none
  creation_timestamp : Option Int := none
  generation : Option Int := none
deriving DecidableEq

/-- k8s `LocalObjectReference` (image pull secrets). -/
structure LocalObjectReference where
  name : Option String := none
deriving DecidableEq

/-- k8s `Volume`, kept abstract: only its name matters to the claims. -/
structure Volume where
  name : String
deriving DecidableEq

/-- k8s `VolumeMount`, kept abstract: only its name matters to the claims. -/
structure VolumeMount where
  name : String
deriving DecidableEq

/-- k8s `HTTPGetAction` restricted to the fields the controller sets. -/
structure HTTPGetAction where
  path : Option String := none
  port : IntOrString
  scheme : Option String := none
deriving DecidableEq

/-- k8s `Probe` restricted to the fields the controller sets. -/
structure Probe where
  http_get : Option HTTPGetAction := none
deriving DecidableEq

/-- k8s `ContainerPort` restricted to the fields the controller sets. -/
structure ContainerPort where
  container_port : Int
  name : Option String := none
deriving DecidableEq

/-- k8s `Container` restricted to the fields the controller sets. -/
structure Container where
  name : String
  image : Option String := none
  args : Option (List String) := none
  env : Option (List EnvVar) := none
  ports : Option (List ContainerPort) := none
  image_pull_policy : Option String := none
  liveness_probe : Option Probe := none
  readiness_probe : Option Probe := none
  volume_mounts : Option (List VolumeMount) := none
deriving DecidableEq

/-- k8s `PodSpec` restricted to the fields the controller sets. -/
structure PodSpec where
  containers : List Container
  volumes : Option (List Volume) := none
  image_pull_secrets : Option (List LocalObjectReference) := none
  restart_policy : Option String := none
deriving DecidableEq

/-- k8s `Pod`. -/
structure Pod where
  metadata : ObjectMeta := {}
  spec : Option PodSpec := none
  status : Option PodStatus := none
deriving DecidableEq

/-- kube `name_any()`: the object's name, defaulting to the empty string. -/
def Pod.name_any (p : Pod) : String :=
  p.metadata.name.getD ""

/-- Modelled from the spec: the resource spec's `common.image` block
(`image:{name, pull_secrets, pull_policy}`), whose Rust definition lives in
the (absent) sink common module. -/
structure ImageSpec where
  name : Option String := none
  pull_secrets : Option (List LocalObjectReference) := none
  pull_policy : Option String := none
deriving DecidableEq

/-- Modelled from the spec: the `common.stream` block.  The source calls
`stream.filter_data()` / `stream.transform_data()`; per the spec each
contributes one volume, one mount and one env entry when present, so the
results of those (absent) methods are modelled as stored optional triples. -/
structure StreamSpec where
  filter_data : Option (Volume × VolumeMount × EnvVar) := none
  transform_data : Option (Volume × VolumeMount × EnvVar) := none
deriving DecidableEq

/-- Modelled from the spec: the resource's common config block —
image reference, filter/transform stream references, and arbitrary
environment contributions (spec section 3: "arbitrary environment
contributions"). -/
structure CommonSpec where
  image : Option ImageSpec := none
  stream : StreamSpec := {}
  env : List EnvVar := []
deriving DecidableEq

/-- Modelled from the spec: `CommonSpec::to_env_var` (absent Rust module)
returns the generic environment contributions of the common config. -/
def CommonSpec.to_env_var (c : CommonSpec) : List EnvVar :=
  c.env

/-- The `SinkWebhook` resource spec: `target_url` (required), `raw`
(optional bool) and the common config block. -/
structure SinkWebhookSpec where
  target_url : String
  raw : Option Bool := none
  common : CommonSpec := {}
deriving DecidableEq

/-- `CommonStatus` as written by the controller (lines 138-146). -/
structure CommonStatus where
  pod_created : Option Int := none
  instance_name : Option String := none
  phase : Option String := none
  conditions : Option (List Condition) := none
  restart_count : Option Nat := none
deriving DecidableEq

/-- `SinkWebhookStatus` wraps the common status. -/
structure SinkWebhookStatus where
  common : CommonStatus
deriving DecidableEq

/-- The `SinkWebhook` custom resource. -/
structure SinkWebhook where
  metadata : ObjectMeta := {}
  spec : SinkWebhookSpec
  status : Option SinkWebhookStatus := none
deriving DecidableEq

/-- kube `name_any()` for the resource. -/
def SinkWebhook.name_any (w : SinkWebhook) : String :=
  w.metadata.name.getD ""

/-- Controller configuration: the default sink image
(`ctx.configuration.webhook.image`). -/
structure WebhookConfig where
  image : String
deriving DecidableEq

/-- Controller configuration root. -/
structure Configuration where
  webhook : WebhookConfig
deriving DecidableEq

/-- The reconcile `Context` (only the configuration is read by this file's
functions; the API client is modelled by explicit state threading). -/
structure Context where
  configuration : Configuration
deriving DecidableEq

/-- Nanoseconds per second. -/
def nanosPerSecond : Int := 1000000000

/-- Nanoseconds per day. -/
def nanosPerDay : Int := 86400 * nanosPerSecond

/-- chrono `DateTime::time()`: the time-of-day component of an instant,
as nanoseconds since the preceding midnight (UTC). -/
def timeOfDay (t : Int) : Int :=
  t % nanosPerDay

/-- Lines 70-72: `(Utc::now().time() - finished_at.0.time()).to_std()
.unwrap_or_default()` — the difference of the two time-of-day components;
a negative difference fails `to_std()` and defaults to a zero duration
(`Int.toNat` clamps negatives to zero). -/
def elapsedNanos (now finishedAt : Int) : Nat :=
  (timeOfDay now - timeOfDay finishedAt).toNat

/-- Line 74: `Duration::from_secs(60)` in nanoseconds. -/
def graceNanos : Nat := 60 * 1000000000

/-- Lines 54-64: the first container's terminated-state completion
timestamp, when every link of the option chain is present. -/
def containerFinishedAt (pod : Pod) : Option Int :=
  (((pod.status.bind fun s => s.container_statuses.bind List.head?).bind
      fun cs => cs.state).bind
    fun st => st.terminated).bind
  fun t => t.finished_at

/-- Outcome of the health-evaluation section (lines 50-90): the restart
increment, the optional `PodTerminated` condition, and the name of the pod
the pass deletes (the delete call of line 76), if any. -/
structure HealthResult where
  restartIncrement : Nat
  errorCondition : Option Condition
  deletePodName : Option String
deriving DecidableEq

/-- Lines 80-87: the `PodTerminated` condition built for a recently
terminated pod. -/
def terminatedCondition (self : SinkWebhook) (finishedAt : Int) : Condition :=
  { last_transition_time := finishedAt
    type_ := "PodTerminated"
    message := "Pod has been terminated"
    observed_generation := self.metadata.generation
    reason := "PodTerminate"
    status := "False" }

/-- Lines 50-90: evaluate the existing pod's health.  A terminated first
container whose computed elapsed time exceeds the 60s grace window is
deleted (restart increment 1); within the window a `PodTerminated`
condition is emitted instead. -/
def healthEval (self : SinkWebhook) (now : Int) (existing : Option Pod) :
    HealthResult :=
  match existing with
  | none => { restartIncrement := 0, errorCondition := none, deletePodName := none }
  | some pod =>
    match containerFinishedAt pod with
    | none => { restartIncrement := 0, errorCondition := none, deletePodName := none }
    | some fin =>
      if elapsedNanos now fin > graceNanos then
        { restartIncrement := 1, errorCondition := none,
          deletePodName := some pod.name_any }
      else
        { restartIncrement := 0,
          errorCondition := some (terminatedCondition self fin),
          deletePodName := none }

/-- The spec's three-way health classification, mirroring the branch
structure of lines 52-89. -/
inductive Health where
  | healthy
  | recentlyTerminated
  | staleTerminated
deriving DecidableEq

/-- Classify the existing pod exactly along the branches of lines 52-89. -/
def classify (now : Int) (existing : Option Pod) : Health :=
  match existing with
  | none => .healthy
  | some pod =>
    match containerFinishedAt pod with
    | none => .healthy
    | some fin =>
      if elapsedNanos now fin > graceNanos then .staleTerminated
      else .recentlyTerminated

/-- Lines 171-178: `object_metadata` — only the name is set, copied from
the resource. -/
def SinkWebhook.object_metadata (self : SinkWebhook) : ObjectMeta :=
  { name := self.metadata.name }

/-- Lines 204-212: the shared HTTP GET probe on the status path and port. -/
def statusProbe : Probe :=
  { http_get := some { path := some "/status", port := .int 8118, scheme := some "HTTP" } }

/-- Lines 180-276: `pod_spec` — the pure desired-pod derivation. -/
def SinkWebhook.pod_spec (self : SinkWebhook) (ctx : Context) : PodSpec :=
  let image := (self.spec.common.image.bind fun i => i.name).getD
    ctx.configuration.webhook.image
  let image_pull_secrets := self.spec.common.image.bind fun i => i.pull_secrets
  let image_pull_policy := self.spec.common.image.bind fun i => i.pull_policy
  let args := ["--status-server-address=0.0.0.0:8118"]
  let envBase : List EnvVar :=
    [{ name := "TARGET_URL", value := some self.spec.target_url }]
  let envRaw : List EnvVar :=
    if self.spec.raw.getD false then
      envBase ++ [{ name := "RAW", value := some "true" }]
    else envBase
  let envCommon := envRaw ++ self.spec.common.to_env_var
  let env := envCommon
    ++ (self.spec.common.stream.filter_data.map fun p => p.2.2).toList
    ++ (self.spec.common.stream.transform_data.map fun p => p.2.2).toList
  let volumes :=
    (self.spec.common.stream.filter_data.map fun p => p.1).toList
    ++ (self.spec.common.stream.transform_data.map fun p => p.1).toList
  let volume_mounts :=
    (self.spec.common.stream.filter_data.map fun p => p.2.1).toList
    ++ (self.spec.common.stream.transform_data.map fun p => p.2.1).toList
  { containers := [{
      name := "sink"
      image := some image
      args := some args
      env := some env
      ports := some [{ container_port := 8118, name := some "status" }]
      image_pull_policy := image_pull_policy
      liveness_probe := some statusProbe
      readiness_probe := some statusProbe
      volume_mounts := some volume_mounts }]
    volumes := some volumes
    image_pull_secrets := image_pull_secrets
    restart_policy := some "Never" }

/-- Lines 92-98: the full pod manifest handed to the apply patch. -/
def SinkWebhook.pod_manifest (self : SinkWebhook) (ctx : Context) : Pod :=
  { metadata := self.object_metadata, spec := some (self.pod_spec ctx) }

/-- Sentinel for chrono `DateTime::<Utc>::MIN_UTC` (line 113), the
platform epoch-minimum fallback; its exact magnitude is immaterial to
every claim, only that it is a fixed value. -/
def minUtcNanos : Int := -(2 ^ 63)

/-- Lines 108-119: the `PodScheduled` condition of every pass. -/
def podScheduledCondition (self : SinkWebhook) (applied : Pod) : Condition :=
  { last_transition_time := applied.metadata.creation_timestamp.getD minUtcNanos
    type_ := "PodScheduled"
    message := "Pod has been scheduled"
    observed_generation := self.metadata.generation
    reason := "PodScheduled"
    status := "True" }

/-- Lines 108-147: project the new status object (the merge-patch
payload's `status` field) from the previous resource state, the applied
pod, and the pass's health result. -/
def buildStatus (self : SinkWebhook) (applied : Pod) (health : HealthResult) :
    SinkWebhookStatus :=
  let phase := if health.errorCondition.isSome then "Error" else "Running"
  let conditions := [podScheduledCondition self applied] ++ health.errorCondition.toList
  let restart_count :=
    self.status.map fun status => status.common.restart_count.getD 0 + health.restartIncrement
  { common := {
      pod_created := applied.metadata.creation_timestamp
      instance_name := applied.metadata.name
      phase := some phase
      conditions := some conditions
      restart_count := restart_count } }

/-- The modelled cluster: the stored pods and the stored resource. -/
structure ClusterState where
  pods : List Pod
  webhook : SinkWebhook
deriving DecidableEq

/-- `Api::get_opt` by pod name over the stored pod list. -/
def lookupPod (pods : List Pod) (name : String) : Option Pod :=
  pods.find? fun p => p.metadata.name == some name

/-- `Api::delete` by pod name over the stored pod list. -/
def removePod (pods : List Pod) (name : String) : List Pod :=
  pods.filter fun p => !(p.metadata.name == some name)

/-- Server-side apply (lines 100-106) as seen from its result: the
manifest, with the creation timestamp (and status) of an already existing
pod of the same name preserved, or a fresh creation timestamp `now`. -/
def applyPodResult (pods : List Pod) (manifest : Pod) (now : Int) : Pod :=
  match lookupPod pods (manifest.metadata.name.getD "") with
  | some old =>
    { manifest with
        metadata := { manifest.metadata with
          creation_timestamp := old.metadata.creation_timestamp }
        status := old.status }
  | none =>
    { manifest with
        metadata := { manifest.metadata with creation_timestamp := some now } }

/-- Store the applied pod, replacing any stored pod of the same name. -/
def putPod (pods : List Pod) (p : Pod) : List Pod :=
  removePod pods (p.metadata.name.getD "") ++ [p]

/-- Which API call of a pass failed. -/
inductive ApiOp where
  | getPod
  | deletePod
  | applyPod
  | patchStatus
deriving DecidableEq

/-- The controller error type (`crate::reconcile::Error`), restricted to
the variants this file produces: API errors tagged with the failing call,
finalizer errors, and the startup CRD-not-installed error. -/
inductive Error where
  | Api (op : ApiOp)
  | Finalizer
  | CrdNotInstalled (name : String)
deriving DecidableEq

/-- kube `Action`: a requeue instruction measured in seconds. -/
inductive Action where
  | requeue (seconds : Nat)
deriving DecidableEq

/-- Failure injection: which kind of API call fails during this pass. -/
structure FailSpec where
  failGet : Bool := false
  failDelete : Bool := false
  failApply : Bool := false
  failStatus : Bool := false
deriving DecidableEq

/-- Merge-patch a single optional field: a present field of the payload
replaces the stored one, an absent field leaves it untouched. -/
def mergeField {α : Type} (new old : Option α) : Option α :=
  match new with
  | some v => some v
  | none => old

/-- Modelled from the spec: the merge-patch of the status payload against
the stored common status ("a partial update ... leaving unspecified
fields untouched"); the serde serialization of the absent Rust status
module omits `None` fields. -/
def mergeCommonStatus (old new : CommonStatus) : CommonStatus :=
  { pod_created := mergeField new.pod_created old.pod_created
    instance_name := mergeField new.instance_name old.instance_name
    phase := mergeField new.phase old.phase
    conditions := mergeField new.conditions old.conditions
    restart_count := mergeField new.restart_count old.restart_count }

/-- Merge the status payload into the stored (possibly absent) status. -/
def mergeStatus (old : Option SinkWebhookStatus) (new : SinkWebhookStatus) :
    SinkWebhookStatus :=
  match old with
  | none => new
  | some o => { common := mergeCommonStatus o.common new.common }

/-- Lines 40-48: fetch the pod named by the previous status's
`instance_name`; with no recorded instance name, no fetch happens and the
result is `none`. -/
def fetchExisting (self : SinkWebhook) (fail : FailSpec) (st : ClusterState) :
    Except Error (Option Pod) :=
  match self.status.bind fun s => s.common.instance_name with
  | none => .ok none
  | some podName =>
    if fail.failGet then .error (.Api .getPod) else .ok (lookupPod st.pods podName)

/-- Lines 75-78: perform the stale-pod delete requested by the health
evaluation, if any. -/
def deleteStale (fail : FailSpec) (pods : List Pod) (health : HealthResult) :
    Except Error (List Pod) :=
  match health.deletePodName with
  | none => .ok pods
  | some pn =>
    if fail.failDelete then .error (.Api .deletePod) else .ok (removePod pods pn)

/-- Lines 30-154: one reconcile pass.  Each `?`-propagated API failure
aborts the pass, returning the cluster state as mutated so far. -/
def reconcile (self : SinkWebhook) (ctx : Context) (now : Int)
    (fail : FailSpec) (st : ClusterState) :
    Except Error Action × ClusterState :=
  match fetchExisting self fail st with
  | .error e => (.error e, st)
  | .ok existing =>
    match deleteStale fail st.pods (healthEval self now existing) with
    | .error e => (.error e, st)
    | .ok pods1 =>
      if fail.failApply then (.error (.Api .applyPod), { st with pods := pods1 })
      else
        let applied := applyPodResult pods1 (self.pod_manifest ctx) now
        if fail.failStatus then
          (.error (.Api .patchStatus), { st with pods := putPod pods1 applied })
        else
          (.ok (.requeue 10),
            { pods := putPod pods1 applied
              webhook := { st.webhook with
                status := some (mergeStatus st.webhook.status
                  (buildStatus self applied (healthEval self now existing))) } })

/-- Lines 156-169: the cleanup pass — look up the pod by the resource
name, delete it when present, and requeue after 10 seconds. -/
def cleanup (self : SinkWebhook) (fail : FailSpec) (st : ClusterState) :
    Except Error Action × ClusterState :=
  if fail.failGet then (.error (.Api .getPod), st)
  else
    match lookupPod st.pods self.name_any with
    | none => (.ok (.requeue 10), st)
    | some _ =>
      if fail.failDelete then (.error (.Api .deletePod), st)
      else (.ok (.requeue 10), { st with pods := removePod st.pods self.name_any })

/-- Lines 300-303: every error is retried after a fixed 30 seconds. -/
def error_policy (_webhook : SinkWebhook) (_error : Error) (_ctx : Context) :
    Action :=
  Action.requeue 30

/-- Modelled from the spec: `SinkWebhook::crd_name()` (the derive lives in
the absent resource-definition module) — the resource type's registered
name. -/
def crd_name : String := "sinkwebhooks.apibara.com"

/-- What a started controller watches. -/
structure ControllerStream where
  watchesWebhooks : Bool
  watchesPods : Bool
deriving DecidableEq

/-- Lines 305-322: `start_controller` — the initial listing call for the
resource type (its success or failure is the argument); on failure the
controller does not start and a CRD-not-installed error carrying the
registered name is returned; on success the controller watches both the
resource type and pods. -/
def start_controller (listSucceeds : Bool) : Except Error ControllerStream :=
  if listSucceeds then .ok { watchesWebhooks := true, watchesPods := true }
  else .error (.CrdNotInstalled crd_name)

/-- The pod the non-failing fetch of a pass resolves (lines 40-48). -/
def fetchedPod (self : SinkWebhook) (st : ClusterState) : Option Pod :=
  (self.status.bind fun s => s.common.instance_name).bind (lookupPod st.pods)

/-- The pod list after executing the health result's delete request. -/
def applyHealthDelete (pods : List Pod) (health : HealthResult) : List Pod :=
  match health.deletePodName with
  | none => pods
  | some pn => removePod pods pn

/-- The stored pod list after the health-driven delete of a pass. -/
def podsAfterHealthDelete (self : SinkWebhook) (now : Int) (st : ClusterState) :
    List Pod :=
  applyHealthDelete st.pods (healthEval self now (fetchedPod self st))

/-- The pod a non-failing pass applies. -/
def appliedPodOf (self : SinkWebhook) (ctx : Context) (now : Int)
    (st : ClusterState) : Pod :=
  applyPodResult (podsAfterHealthDelete self now st) (self.pod_manifest ctx) now

/-- The environment of the first container of a pod spec. -/
def firstContainerEnv (ps : PodSpec) : List EnvVar :=
  ((ps.containers.head?).bind Container.env).getD []

/-- The env entries contributed by the filter/transform stream data. -/
def streamEnvContributions (s : StreamSpec) : List EnvVar :=
  (s.filter_data.map fun p => p.2.2).toList
    ++ (s.transform_data.map fun p => p.2.2).toList

/-- Test fixture: a pod named `wh` whose first container terminated at the
given instant. -/
def podFinishedAt (fin : Int) : Pod :=
  { metadata := { name := some "wh" }
    status := some
      { container_statuses :=
          some [{ state := some { terminated := some { finished_at := some fin } } }] } }

/-- Test fixture: a webhook resource with no status. -/
def wb0 : SinkWebhook :=
  { metadata := { name := some "wh" }
    spec := { target_url := "http://example/hook" } }

/-- Test fixture: a controller context with a default image. -/
def ctx0 : Context :=
  { configuration := { webhook := { image := "apibara/sink-webhook:latest" } } }

/-- Test fixture: a previous status recording pod `wh` and 3 restarts. -/
def wbPrevStatus : SinkWebhookStatus :=
  { common := { instance_name := some "wh", restart_count := some 3 } }

/-- Test fixture: a webhook resource whose previous status is
`wbPrevStatus`. -/
def wbPrev : SinkWebhook :=
  { metadata := { name := some "wh" }
    spec := { target_url := "http://example/hook" }
    status := some wbPrevStatus }

/-- Test fixture: a cluster holding the resource `wbPrev` and its pod,
terminated at instant 0. -/
def st1 : ClusterState := { pods := [podFinishedAt 0], webhook := wbPrev }

/-- Test fixture: a resource with `raw = false` whose common config
contributes an env entry itself named `RAW`. -/
def wbRaw : SinkWebhook :=
  { metadata := { name := some "wh" }
    spec := { target_url := "http://example/hook"
              raw := some false
              common := { env := [{ name := "RAW", value := some "true" }] } } }

/-- Test fixture: a resource with `raw = true` and an empty common
config. -/
def wbTrue : SinkWebhook :=
  { metadata := { name := some "wh" }
    spec := { target_url := "http://example/hook", raw := some true } }

end Webhook

namespace Webhook

/-! Theorems about the embedded controller. -/

/-- C1 counterexample: a pass observing a pod whose first container
finished exactly 60 seconds before `now` (elapsed time equal to the 60s
grace bound, hence at least 60s) does NOT delete the pod: the restart
increment is 0 and a `PodTerminated` condition is emitted, contradicting
the claim's `elapsed >= 60s` branch (line 74 tests `elapsed > 60s`
strictly). -/
theorem c1_counterexample :
    containerFinishedAt (podFinishedAt 0) = some 0 ∧
    graceNanos ≤ elapsedNanos 60000000000 0 ∧
    (healthEval wb0 60000000000 (some (podFinishedAt 0))).deletePodName = none ∧
    (healthEval wb0 60000000000 (some (podFinishedAt 0))).restartIncrement = 0 ∧
    (healthEval wb0 60000000000 (some (podFinishedAt 0))).errorCondition.isSome = true := by
  refine ⟨rfl, by decide, rfl, rfl, rfl⟩

/-- C1 (amended): for a pass whose existing pod's first container has a
terminated state with completion timestamp `fin`, if the computed elapsed
time STRICTLY exceeds 60 seconds the pod is deleted in that pass, the
restart increment is 1 and no error condition is emitted; if the elapsed
time is at most 60 seconds (the boundary included) the pod is not
deleted, the restart increment is 0 and a `PodTerminated` condition with
status `False` and reason `PodTerminate` is emitted. -/
theorem c1_grace_window (self : SinkWebhook) (now : Int) (pod : Pod) (fin : Int)
    (hfin : containerFinishedAt pod = some fin) :
    (graceNanos < elapsedNanos now fin →
      (healthEval self now (some pod)).deletePodName = some pod.name_any ∧
      (healthEval self now (some pod)).restartIncrement = 1 ∧
      (healthEval self now (some pod)).errorCondition = none) ∧
    (elapsedNanos now fin ≤ graceNanos →
      (healthEval self now (some pod)).deletePodName = none ∧
      (healthEval self now (some pod)).restartIncrement = 0 ∧
      (healthEval self now (some pod)).errorCondition
        = some (terminatedCondition self fin) ∧
      (terminatedCondition self fin).status = "False" ∧
      (terminatedCondition self fin).reason = "PodTerminate") := by
  constructor
  · intro h
    simp only [healthEval, hfin]
    rw [if_pos h]
    exact ⟨rfl, rfl, rfl⟩
  · intro h
    simp only [healthEval, hfin]
    rw [if_neg (by omega)]
    exact ⟨rfl, rfl, rfl, rfl, rfl⟩

/-- C1 witness: at 61 seconds after completion, the pod is deleted with
restart increment 1 and no error condition. -/
theorem c1_grace_window_witness :
    (healthEval wb0 61000000000 (some (podFinishedAt 0))).deletePodName = some "wh" ∧
    (healthEval wb0 61000000000 (some (podFinishedAt 0))).restartIncrement = 1 ∧
    (healthEval wb0 61000000000 (some (podFinishedAt 0))).errorCondition = none :=
  (c1_grace_window wb0 61000000000 (podFinishedAt 0) 0 rfl).1 (by decide)

/-- C2 counterexample: when the resource has no status at all, the status
written by the pass carries NO `restart_count` value (line 132's
`Option::map` over the absent status), not the claimed previous-default-0
plus increment (which would be `some 0`). -/
theorem c2_counterexample :
    wb0.status = none ∧
    (buildStatus wb0 (podFinishedAt 0) (healthEval wb0 0 none)).common.restart_count = none ∧
    (buildStatus wb0 (podFinishedAt 0) (healthEval wb0 0 none)).common.restart_count
      ≠ some 0 := by
  refine ⟨rfl, rfl, by decide⟩

/-- C2 (amended): when the resource HAS a previous status, the written
`restart_count` equals the previous value (defaulting to 0 when the field
is absent inside the status) plus the pass's restart increment, and hence
never decreases; when the resource has no status at all, the written
status carries no `restart_count` value. -/
theorem c2_restart_count (self : SinkWebhook) (applied : Pod) (health : HealthResult) :
    (∀ s, self.status = some s →
      (buildStatus self applied health).common.restart_count
        = some (s.common.restart_count.getD 0 + health.restartIncrement) ∧
      s.common.restart_count.getD 0
        ≤ ((buildStatus self applied health).common.restart_count).getD 0) ∧
    (self.status = none →
      (buildStatus self applied health).common.restart_count = none) := by
  constructor
  · intro s hs
    refine ⟨by simp [buildStatus, hs], ?_⟩
    simp [buildStatus, hs]
  · intro hs
    simp [buildStatus, hs]

/-- C2 witness: with previous restart count 3 and a stale-delete pass
(increment 1), the written restart count is 4 and did not decrease. -/
theorem c2_restart_count_witness :
    (buildStatus wbPrev (podFinishedAt 0)
        { restartIncrement := 1, errorCondition := none, deletePodName := some "wh" }
      ).common.restart_count = some 4 ∧
    wbPrevStatus.common.restart_count.getD 0
      ≤ ((buildStatus wbPrev (podFinishedAt 0)
          { restartIncrement := 1, errorCondition := none, deletePodName := some "wh" }
        ).common.restart_count).getD 0 :=
  (c2_restart_count wbPrev (podFinishedAt 0)
    { restartIncrement := 1, errorCondition := none, deletePodName := some "wh" }).1
    wbPrevStatus rfl

/-- C8: the desired pod manifest has the resource's name, exactly one
container named `sink` with exactly one port named `status`, the fixed
status-server bind flag in its args, identical HTTP GET liveness and
readiness probes on the status path and port, and pod-level restart
policy `Never`. -/
theorem c8_pod_contract (self : SinkWebhook) (ctx : Context) :
    (self.pod_manifest ctx).metadata.name = self.metadata.name ∧
    (self.pod_spec ctx).containers.map Container.name = ["sink"] ∧
    (self.pod_spec ctx).containers.map Container.ports
      = [some [{ container_port := 8118, name := some "status" }]] ∧
    (self.pod_spec ctx).containers.map Container.args
      = [some ["--status-server-address=0.0.0.0:8118"]] ∧
    (self.pod_spec ctx).containers.map Container.liveness_probe = [some statusProbe] ∧
    (self.pod_spec ctx).containers.map Container.readiness_probe = [some statusProbe] ∧
    statusProbe.http_get
      = some { path := some "/status", port := .int 8118, scheme := some "HTTP" } ∧
    (self.pod_spec ctx).restart_policy = some "Never" :=
  ⟨rfl, rfl, rfl, rfl, rfl, rfl, rfl, rfl⟩

/-- C10: a failed listing call makes `start_controller` return the
CRD-not-installed error carrying the resource type's registered name and
the controller does not start; a successful listing call starts a
controller watching both the resource type and pods. -/
theorem c10_startup :
    start_controller false = .error (.CrdNotInstalled crd_name) ∧
    start_controller true = .ok { watchesWebhooks := true, watchesPods := true } :=
  ⟨rfl, rfl⟩

end Webhook

namespace Webhook

/-- C3: the conditions list written by a successful pass always equals the
`PodScheduled` condition (status `True`, reason `PodScheduled`) followed by
the optional error condition; a `PodTerminated`-typed condition is present
exactly when the health evaluation classified the pod as recently
terminated; and the written phase is `Error` exactly in that case,
otherwise `Running`. -/
theorem c3_conditions_phase (self : SinkWebhook) (applied : Pod) (now : Int)
    (existing : Option Pod) :
    (buildStatus self applied (healthEval self now existing)).common.conditions
      = some ([podScheduledCondition self applied]
          ++ (healthEval self now existing).errorCondition.toList) ∧
    (podScheduledCondition self applied).type_ = "PodScheduled" ∧
    (podScheduledCondition self applied).status = "True" ∧
    (podScheduledCondition self applied).reason = "PodScheduled" ∧
    ((∃ c ∈ [podScheduledCondition self applied]
        ++ (healthEval self now existing).errorCondition.toList,
        c.type_ = "PodTerminated")
      ↔ classify now existing = Health.recentlyTerminated) ∧
    ((buildStatus self applied (healthEval self now existing)).common.phase
      = some (if classify now existing = Health.recentlyTerminated
          then "Error" else "Running")) := by
  refine ⟨rfl, rfl, rfl, rfl, ?_⟩
  cases existing with
  | none =>
    simp [healthEval, classify, buildStatus, podScheduledCondition]
  | some pod =>
    cases hfin : containerFinishedAt pod with
    | none =>
      simp [healthEval, classify, hfin, buildStatus, podScheduledCondition]
    | some fin =>
      by_cases h : elapsedNanos now fin > graceNanos
      · simp [healthEval, classify, hfin, h, buildStatus, podScheduledCondition]
      · simp [healthEval, classify, hfin, h, buildStatus, podScheduledCondition,
          terminatedCondition]

/-- C5: the elapsed time of the health evaluation depends only on the
time-of-day components of the two instants, clamps a negative time-of-day
difference to zero, and consequently a pod that really finished a full
day plus 30 seconds before `now` (far more than 60 seconds) is still
classified as recently terminated and is not deleted. -/
theorem c5_elapsed_time_of_day :
    (∀ now fin : Int, elapsedNanos now fin = elapsedNanos (timeOfDay now) (timeOfDay fin)) ∧
    (∀ now fin : Int, timeOfDay now < timeOfDay fin → elapsedNanos now fin = 0) ∧
    (60 * nanosPerSecond < (nanosPerDay + 30000000000) - 0 ∧
     classify (nanosPerDay + 30000000000) (some (podFinishedAt 0))
        = Health.recentlyTerminated ∧
     (healthEval wb0 (nanosPerDay + 30000000000) (some (podFinishedAt 0))).deletePodName
        = none ∧
     (healthEval wb0 (nanosPerDay + 30000000000) (some (podFinishedAt 0))).restartIncrement
        = 0) := by
  refine ⟨?_, ?_, by decide, by decide, by decide, by decide⟩
  · intro now fin
    unfold elapsedNanos timeOfDay
    rw [Int.emod_emod_of_dvd now dvd_rfl, Int.emod_emod_of_dvd fin dvd_rfl]
  · intro now fin h
    unfold elapsedNanos
    apply Int.toNat_of_nonpos
    omega

/-- C5 witness: a pod that finished at 23:00 observed at 01:00 the next
day (two real hours later) has a negative time-of-day difference and thus
a computed elapsed time of zero. -/
theorem c5_elapsed_time_of_day_witness :
    timeOfDay 3600000000000 < timeOfDay 82800000000000 ∧
    elapsedNanos 3600000000000 82800000000000 = 0 :=
  ⟨by decide, c5_elapsed_time_of_day.2.1 3600000000000 82800000000000 (by decide)⟩

end Webhook

namespace Webhook

/-- C6: every reconcile pass either fails or returns a
requeue-after-10-seconds instruction; every cleanup pass either fails or
returns a requeue-after-10-seconds instruction; and the error policy maps
every error, of any kind, to a fixed 30-second retry. -/
theorem c6_timing :
    (∀ (self : SinkWebhook) (ctx : Context) (now : Int) (fail : FailSpec)
        (st : ClusterState),
      (reconcile self ctx now fail st).1 = .ok (.requeue 10)
        ∨ ∃ e, (reconcile self ctx now fail st).1 = .error e) ∧
    (∀ (self : SinkWebhook) (fail : FailSpec) (st : ClusterState),
      (cleanup self fail st).1 = .ok (.requeue 10)
        ∨ ∃ e, (cleanup self fail st).1 = .error e) ∧
    (∀ (w : SinkWebhook) (e : Error) (ctx : Context),
      error_policy w e ctx = .requeue 30) := by
  refine ⟨?_, ?_, fun _ _ _ => rfl⟩
  · intro self ctx now fail st
    cases hf : fetchExisting self fail st with
    | error e => exact Or.inr ⟨e, by simp [reconcile, hf]⟩
    | ok existing =>
      cases hd : deleteStale fail st.pods (healthEval self now existing) with
      | error e => exact Or.inr ⟨e, by simp [reconcile, hf, hd]⟩
      | ok pods1 =>
        by_cases hA : fail.failApply = true
        · exact Or.inr ⟨.Api .applyPod, by simp [reconcile, hf, hd, hA]⟩
        · by_cases hS : fail.failStatus = true
          · exact Or.inr ⟨.Api .patchStatus, by simp [reconcile, hf, hd, hA, hS]⟩
          · exact Or.inl (by simp [reconcile, hf, hd, hA, hS])
  · intro self fail st
    by_cases hG : fail.failGet = true
    · exact Or.inr ⟨.Api .getPod, by simp [cleanup, hG]⟩
    · cases hl : lookupPod st.pods self.name_any with
      | none => exact Or.inl (by simp [cleanup, hG, hl])
      | some p =>
        by_cases hD : fail.failDelete = true
        · exact Or.inr ⟨.Api .deletePod, by simp [cleanup, hG, hl, hD]⟩
        · exact Or.inl (by simp [cleanup, hG, hl, hD])

/-- C9: a reconcile pass never modifies the stored resource's spec or its
non-status metadata — the stored resource after any pass (failing or not)
is the old resource with at most its status field replaced, the status
write being the merge of the `buildStatus` payload. -/
theorem c9_status_patch_frame (self : SinkWebhook) (ctx : Context) (now : Int)
    (fail : FailSpec) (st : ClusterState) :
    (reconcile self ctx now fail st).2.webhook.spec = st.webhook.spec ∧
    (reconcile self ctx now fail st).2.webhook.metadata = st.webhook.metadata ∧
    ∃ s, (reconcile self ctx now fail st).2.webhook
      = { st.webhook with status := s } := by
  cases hf : fetchExisting self fail st with
  | error e => exact ⟨by simp [reconcile, hf], by simp [reconcile, hf],
      st.webhook.status, by simp [reconcile, hf]⟩
  | ok existing =>
    cases hd : deleteStale fail st.pods (healthEval self now existing) with
    | error e => exact ⟨by simp [reconcile, hf, hd], by simp [reconcile, hf, hd],
        st.webhook.status, by simp [reconcile, hf, hd]⟩
    | ok pods1 =>
      by_cases hA : fail.failApply = true
      · exact ⟨by simp [reconcile, hf, hd, hA], by simp [reconcile, hf, hd, hA],
          st.webhook.status, by simp [reconcile, hf, hd, hA]⟩
      · by_cases hS : fail.failStatus = true
        · exact ⟨by simp [reconcile, hf, hd, hA, hS], by simp [reconcile, hf, hd, hA, hS],
            st.webhook.status, by simp [reconcile, hf, hd, hA, hS]⟩
        · exact ⟨by simp [reconcile, hf, hd, hA, hS], by simp [reconcile, hf, hd, hA, hS],
            some (mergeStatus st.webhook.status
              (buildStatus self (applyPodResult pods1 (self.pod_manifest ctx) now)
                (healthEval self now existing))),
            by simp [reconcile, hf, hd, hA, hS]⟩

end Webhook

namespace Webhook

/-- A non-failing fetch resolves the pod named by the previous status. -/
theorem fetchExisting_noFail (self : SinkWebhook) (fail : FailSpec)
    (st : ClusterState) (h : fail.failGet = false) :
    fetchExisting self fail st = .ok (fetchedPod self st) := by
  unfold fetchExisting fetchedPod
  cases self.status.bind fun s => s.common.instance_name with
  | none => rfl
  | some pn => simp [h]

/-- A failing fetch aborts the pass whenever a fetch is attempted. -/
theorem fetchExisting_fail (self : SinkWebhook) (fail : FailSpec)
    (st : ClusterState) (h : fail.failGet = true)
    (hi : (self.status.bind fun s => s.common.instance_name).isSome = true) :
    fetchExisting self fail st = .error (.Api .getPod) := by
  unfold fetchExisting
  cases hs : self.status.bind fun s => s.common.instance_name with
  | none => rw [hs] at hi; simp at hi
  | some pn => simp [h]

/-- A non-failing delete step executes the health result's request. -/
theorem deleteStale_noFail (fail : FailSpec) (pods : List Pod)
    (health : HealthResult) (h : fail.failDelete = false) :
    deleteStale fail pods health = .ok (applyHealthDelete pods health) := by
  unfold deleteStale applyHealthDelete
  cases health.deletePodName with
  | none => rfl
  | some pn => simp [h]

/-- A failing delete aborts the pass whenever a delete is attempted. -/
theorem deleteStale_fail (fail : FailSpec) (pods : List Pod)
    (health : HealthResult) (h : fail.failDelete = true)
    (hd : health.deletePodName.isSome = true) :
    deleteStale fail pods health = .error (.Api .deletePod) := by
  unfold deleteStale
  cases hp : health.deletePodName with
  | none => rw [hp] at hd; simp at hd
  | some pn => simp [h]

/-- Searching with a predicate over a list purged of its satisfying
elements finds nothing. -/
theorem find?_of_filter_not {α : Type} (q : α → Bool) (l : List α) :
    (l.filter fun x => !(q x)).find? q = none := by
  induction l with
  | nil => rfl
  | cons a l ih =>
    by_cases h : q a
    · simp [List.filter_cons, h, ih]
    · simp [List.filter_cons, List.find?_cons, h, ih]

/-- Looking up the name of a freshly stored pod finds exactly that pod. -/
theorem lookupPod_putPod (l : List Pod) (p : Pod) (n : String)
    (hp : p.metadata.name = some n) :
    lookupPod (putPod l p) n = some p := by
  unfold lookupPod putPod removePod
  rw [hp]
  simp only [Option.getD_some]
  rw [List.find?_append, find?_of_filter_not]
  simp [List.find?_cons, hp]

/-- Server-side apply preserves the manifest's name. -/
theorem applyPodResult_name (pods : List Pod) (m : Pod) (now : Int) :
    (applyPodResult pods m now).metadata.name = m.metadata.name := by
  unfold applyPodResult
  cases lookupPod pods (m.metadata.name.getD "") <;> rfl

/-- C7: a failing pod fetch aborts the entire pass with an API error and
no mutation; a failing pod delete aborts with an API error and no
mutation; a failing pod apply aborts with an API error, leaving the
cluster exactly as the already-committed delete left it and the resource
untouched; and a failing status patch surfaces an API error while the
applied pod persists and the stored resource (status included) is exactly
as before the pass. -/
theorem c7_failure_isolation (self : SinkWebhook) (ctx : Context) (now : Int)
    (st : ClusterState) (n : String) (hn : self.metadata.name = some n) :
    (∀ fail : FailSpec, fail.failGet = true →
      (self.status.bind fun s => s.common.instance_name).isSome = true →
      reconcile self ctx now fail st = (.error (.Api .getPod), st)) ∧
    (∀ fail : FailSpec, fail.failGet = false → fail.failDelete = true →
      ((healthEval self now (fetchedPod self st)).deletePodName).isSome = true →
      reconcile self ctx now fail st = (.error (.Api .deletePod), st)) ∧
    (reconcile self ctx now { failApply := true } st
      = (.error (.Api .applyPod),
          { st with pods := podsAfterHealthDelete self now st })) ∧
    ((reconcile self ctx now { failStatus := true } st).1
      = .error (.Api .patchStatus)) ∧
    ((reconcile self ctx now { failStatus := true } st).2.webhook = st.webhook) ∧
    (lookupPod (reconcile self ctx now { failStatus := true } st).2.pods n
      = some (appliedPodOf self ctx now st)) := by
  have happ : (appliedPodOf self ctx now st).metadata.name = some n := by
    rw [appliedPodOf, applyPodResult_name]
    exact hn
  refine ⟨?_, ?_, ?_, ?_, ?_, ?_⟩
  · intro fail hg hi
    simp [reconcile, fetchExisting_fail self fail st hg hi]
  · intro fail hg hd hds
    simp [reconcile, fetchExisting_noFail self fail st hg,
      deleteStale_fail fail st.pods _ hd hds]
  · simp [reconcile, fetchExisting_noFail self { failApply := true } st rfl,
      deleteStale_noFail { failApply := true } st.pods
        (healthEval self now (fetchedPod self st)) rfl,
      podsAfterHealthDelete]
  · simp [reconcile, fetchExisting_noFail self { failStatus := true } st rfl,
      deleteStale_noFail { failStatus := true } st.pods
        (healthEval self now (fetchedPod self st)) rfl]
  · simp [reconcile, fetchExisting_noFail self { failStatus := true } st rfl,
      deleteStale_noFail { failStatus := true } st.pods
        (healthEval self now (fetchedPod self st)) rfl]
  · simp only [reconcile, fetchExisting_noFail self { failStatus := true } st rfl,
      deleteStale_noFail { failStatus := true } st.pods
        (healthEval self now (fetchedPod self st)) rfl]
    exact lookupPod_putPod _ _ n happ

end Webhook

namespace Webhook

/-- C7 witness: on a concrete stale-terminated cluster, a failing fetch
and a failing delete each abort the pass with the matching API error and
leave the cluster untouched. -/
theorem c7_failure_isolation_witness :
    reconcile wbPrev ctx0 100000000000 { failGet := true } st1
      = (.error (.Api .getPod), st1) ∧
    reconcile wbPrev ctx0 100000000000 { failGet := false, failDelete := true } st1
      = (.error (.Api .deletePod), st1) :=
  ⟨(c7_failure_isolation wbPrev ctx0 100000000000 st1 "wh" rfl).1
      { failGet := true } rfl rfl,
   (c7_failure_isolation wbPrev ctx0 100000000000 st1 "wh" rfl).2.1
      { failGet := false, failDelete := true } rfl rfl (by decide)⟩

/-- The first container's environment, as assembled by `pod_spec`:
`TARGET_URL` (and `RAW` when `spec.raw` is true), then the common-config
contributions, then the filter/transform stream entries. -/
theorem firstContainerEnv_pod_spec (self : SinkWebhook) (ctx : Context) :
    firstContainerEnv (self.pod_spec ctx)
      = (if self.spec.raw.getD false then
          [EnvVar.mk "TARGET_URL" (some self.spec.target_url),
           EnvVar.mk "RAW" (some "true")]
         else [EnvVar.mk "TARGET_URL" (some self.spec.target_url)])
        ++ self.spec.common.to_env_var
        ++ streamEnvContributions self.spec.common.stream := by
  unfold firstContainerEnv SinkWebhook.pod_spec streamEnvContributions
    CommonSpec.to_env_var
  by_cases h : self.spec.raw.getD false <;> simp [h]

/-- C4 counterexample: a resource with `spec.raw = false` whose
common-config env contributions contain an entry named `RAW` still yields
a pod environment containing `RAW="true"`, refuting the claimed
"if and only if". -/
theorem c4_counterexample :
    wbRaw.spec.raw = some false ∧
    EnvVar.mk "RAW" (some "true") ∈ firstContainerEnv (wbRaw.pod_spec ctx0) :=
  ⟨rfl, by decide⟩

/-- C4 (amended): the builder always places `TARGET_URL` with the spec's
target URL in the pod environment, and appends a `RAW="true"` entry
exactly when `spec.raw` is true; since the common-config and
filter/transform contributions are appended verbatim, the claimed
"`RAW` present iff `spec.raw`" holds provided none of those user-supplied
contributions is itself named `RAW`. -/
theorem c4_env_assembly (self : SinkWebhook) (ctx : Context)
    (hcommon : ∀ e ∈ self.spec.common.to_env_var, e.name ≠ "RAW")
    (hstream : ∀ e ∈ streamEnvContributions self.spec.common.stream, e.name ≠ "RAW") :
    EnvVar.mk "TARGET_URL" (some self.spec.target_url)
      ∈ firstContainerEnv (self.pod_spec ctx) ∧
    ((∃ e ∈ firstContainerEnv (self.pod_spec ctx), e.name = "RAW")
      ↔ self.spec.raw.getD false = true) ∧
    (self.spec.raw.getD false = true →
      EnvVar.mk "RAW" (some "true") ∈ firstContainerEnv (self.pod_spec ctx)) := by
  rw [firstContainerEnv_pod_spec]
  by_cases h : self.spec.raw.getD false = true
  · rw [if_pos h]
    refine ⟨by simp, ?_, fun _ => by simp⟩
    constructor
    · intro _
      exact h
    · intro _
      exact ⟨EnvVar.mk "RAW" (some "true"), by simp, rfl⟩
  · rw [if_neg h]
    refine ⟨by simp, ?_, fun hc => absurd hc h⟩
    constructor
    · rintro ⟨e, he, hename⟩
      simp only [List.mem_append, List.mem_singleton] at he
      rcases he with (rfl | he) | he
      · simp at hename
      · exact absurd hename (hcommon e he)
      · exact absurd hename (hstream e he)
    · intro hc
      exact absurd hc h

/-- C4 witness: with `raw = true` and an empty common config, the pod
environment holds `TARGET_URL` and a `RAW` entry, and the iff holds. -/
theorem c4_env_assembly_witness :
    EnvVar.mk "TARGET_URL" (some "http://example/hook")
      ∈ firstContainerEnv (wbTrue.pod_spec ctx0) ∧
    ((∃ e ∈ firstContainerEnv (wbTrue.pod_spec ctx0), e.name = "RAW")
      ↔ wbTrue.spec.raw.getD false = true) ∧
    (wbTrue.spec.raw.getD false = true →
      EnvVar.mk "RAW" (some "true") ∈ firstContainerEnv (wbTrue.pod_spec ctx0)) :=
  c4_env_assembly wbTrue ctx0 (by simp [CommonSpec.to_env_var, wbTrue])
    (by simp [streamEnvContributions, wbTrue])

end Webhook
